import Mathlib

/-!
Verification of package `shutdown` (repository janos/x, file defining the
`Graceful` type): a graceful-shutdown coordinator built from a
`sync.WaitGroup`, a `quit` channel closed at most once through a
`sync.Once`, and a `select`-based race in `Shutdown` between the counter
draining and an externally supplied `context.Context` deadline.

The Go code is embedded shallowly:

* the synchronisation state of a `Graceful` value is the pair of the
  WaitGroup counter and the closed-ness of the `quit` channel (`GState`);
* `sync.WaitGroup.Add` follows the Go standard library contract: the delta
  is added to the counter and a negative resulting counter panics, which
  is modelled as `Option.none`;
* the timing behaviour of `Shutdown` is modelled by the arrival times of
  the two channel closures its `select` waits on (`Race`): the instant the
  spawned goroutine closes `done` because the counter drained, and the
  instant `ctx.Done()` is closed; Go `select` commits to the earlier of
  the two and chooses uniformly at random on a tie, which is modelled by
  an explicit `coin` argument;
* the goroutine spawned by `Graceful.Context` cancels the derived context
  as soon as the quit channel closes or the derived context is done;
  `context.WithCancel` additionally propagates the parent's cancellation,
  so the derived context is done at the earlier of the parent's
  cancellation and the quit closure (`CtxRace`, `Context`);
* worker activity on the counter is a sequence of `Add`/`Done` events
  (`WEv`), and `sync.WaitGroup.Wait` releases a waiter at the first point
  at which the counter is zero (`waitSteps`).
-/

namespace Graceful

/-- The two values `context.Context.Err()` can return once the context is
done, per the Go standard library: `context.Canceled` and
`context.DeadlineExceeded`. This is the cancellation reason carried out of
`Shutdown` when the context wins the race. -/
inductive CtxErr where
  | canceled
  | deadlineExceeded
deriving DecidableEq

/-- Result of `Graceful.Shutdown`: `none` is Go's `nil` (success), `some e`
is the error `ctx.Err()` returned from the `case <-ctx.Done()` branch. -/
abbrev ShutdownResult := Option CtxErr

/-- Synchronisation state of a `Graceful` value: the `sync.WaitGroup`
counter `wg` and whether the `quit` channel has been closed. The
`sync.Once` guard needs no further state: the closure that closes `quit`
runs only through it, so `quitClosed` records everything observable. -/
structure GState where
  counter : Int
  quitClosed : Bool
deriving DecidableEq

/-- `NewGraceful()`: a fresh coordinator has a zero WaitGroup counter and
an open (not yet closed) quit channel. -/
def NewGraceful : GState :=
  { counter := 0, quitClosed := false }

/-- `sync.WaitGroup.Add` on a counter value, per the Go standard library
contract quoted in the repository's own doc comment on `Graceful.Add`:
adds `delta` (which may be negative) to the counter and panics — modelled
as `none` — if the counter becomes negative. -/
def wgAdd (c delta : Int) : Option Int :=
  if c + delta < 0 then none else some (c + delta)

/-- `Graceful.Add(delta)`: delegates to `g.wg.Add(delta)`. A panic of the
underlying WaitGroup is `none`. -/
def Add (g : GState) (delta : Int) : Option GState :=
  (wgAdd g.counter delta).map fun c => { g with counter := c }

/-- `Graceful.Done()`: delegates to `g.wg.Done()`, which is
`g.wg.Add(-1)`. -/
def Done (g : GState) : Option GState :=
  Add g (-1)

/-- `Graceful.Quit()`: returns the `quit` channel and mutates nothing; the
observation the returned channel enables is whether it has been closed. -/
def Quit (g : GState) : GState × Bool :=
  (g, g.quitClosed)

/-- The first statement of `Graceful.Shutdown`:
`g.quitOnce.Do(func() { close(g.quit) })`. Closing an already-closed
channel never happens because the close runs only inside the `Once`, so
the state effect is simply that `quit` is now closed. -/
def requestQuit (g : GState) : GState :=
  { g with quitClosed := true }

/-- Arrival times, relative to the moment `Shutdown`'s `select` starts, of
the two channel closures the `select` waits on. `tCtx` is the instant
`ctx.Done()` is closed, `tZero` the instant the goroutine spawned by
`Shutdown` closes `done` after `g.wg.Wait()` returned (the counter
drained). `none` means the event never happens. -/
structure Race where
  tCtx : Option Nat
  tZero : Option Nat
deriving DecidableEq

/-- The two cases of `Shutdown`'s `select` statement. -/
inductive Branch where
  | ctxDone
  | drained
deriving DecidableEq

/-- Go `select` over the two cases of `Shutdown`: it commits to the case
whose channel closes first, blocks while neither is closed (`none` when
neither ever closes), and when both are ready at the same instant Go
chooses uniformly at random, modelled by the `coin` argument. -/
def selectFirst (r : Race) (coin : Bool) : Option (Nat × Branch) :=
  match r.tCtx, r.tZero with
  | none, none => none
  | some a, none => some (a, Branch.ctxDone)
  | none, some b => some (b, Branch.drained)
  | some a, some b =>
    if a < b then some (a, Branch.ctxDone)
    else if b < a then some (b, Branch.drained)
    else some (a, if coin then Branch.ctxDone else Branch.drained)

/-- `Graceful.Shutdown(ctx)`, given the timing environment of its
`select`. It first closes `quit` through the `Once`, then spawns the
goroutine waiting for the counter and races it against `ctx.Done()`. The
returned pair is the state after the call and, when the `select` fires,
the commit time together with the returned value: `ctx.Err()` (the value
`e`) from the `<-ctx.Done()` branch, `nil` from the `<-done` branch.
`none` in the second component means the call never returns. -/
def Shutdown (g : GState) (r : Race) (e : CtxErr) (coin : Bool) :
    GState × Option (Nat × ShutdownResult) :=
  (requestQuit g,
    (selectFirst r coin).map fun tb =>
      (tb.1, match tb.2 with
        | Branch.ctxDone => some e
        | Branch.drained => none))

/-- Exit time of the goroutine `Shutdown` spawns: it runs `g.wg.Wait()`
and then closes `done`, so it exits when the counter drains and never
exits if the counter never drains — independently of which `select`
branch `Shutdown` itself takes. -/
def shutdownGoroutineExit (r : Race) : Option Nat :=
  r.tZero

/-- Timing environment of `Graceful.Context(parent)`: the instant the
parent context is canceled, the instant the quit channel is closed, and
the instant the WaitGroup counter drains. The spawned goroutine never
touches the WaitGroup, so `tDrain` is recorded only to state that the
derived cancellation does not depend on it. `none` means never. -/
structure CtxRace where
  tParent : Option Nat
  tQuit : Option Nat
  tDrain : Option Nat
deriving DecidableEq

/-- Minimum of two optional instants, `none` meaning never. -/
def ominN : Option Nat → Option Nat → Option Nat
  | none, b => b
  | some a, none => some a
  | some a, some b => some (min a b)

/-- Cancellation time of the context returned by
`Graceful.Context(parent)`. `context.WithCancel` propagates the parent's
cancellation to the derived context, and the spawned goroutine calls
`cancel()` as soon as its `select` sees the quit channel closed or the
derived context done; the derived context is therefore done at the
earlier of the parent's cancellation and the quit closure, and never if
neither happens. -/
def Context (cr : CtxRace) : Option Nat :=
  ominN cr.tParent cr.tQuit

/-- Exit time of the goroutine spawned by `Graceful.Context`: its
`select` fires at the derived context's cancellation time, after which it
calls `cancel()` and returns; it never exits while neither of its two
trigger channels closes. -/
def contextGoroutineExit (cr : CtxRace) : Option Nat :=
  Context cr

/-- Worker events on the counter: the two repository operations that
change the WaitGroup. -/
inductive WEv where
  | add (n : Int)
  | done
deriving DecidableEq

/-- The delta each worker event passes to the underlying
`sync.WaitGroup.Add`. -/
def evDelta : WEv → Int
  | WEv.add n => n
  | WEv.done => -1

/-- Effect of one worker event on the counter: `Add` and `Done` both go
through `wgAdd`, so a negative resulting counter panics (`none`). -/
def stepCounter (c : Int) : WEv → Option Int
  | WEv.add n => wgAdd c n
  | WEv.done => wgAdd c (-1)

/-- Counter value after a sequence of worker events starting from `c`;
`none` once any event panicked the WaitGroup. -/
def runCounter (c : Int) : List WEv → Option Int
  | [] => some c
  | e :: es =>
    match stepCounter c e with
    | none => none
    | some c2 => runCounter c2 es

/-- `sync.WaitGroup.Wait` observed against the remaining worker events:
the number of events that happen before a waiter blocked at counter value
`c` is released. The WaitGroup releases all waiters whenever the counter
is zero, and a `Wait` that starts at a zero counter returns at once, so
the waiter is released at the first point at which the counter is zero;
`none` if the counter is never zero (or a worker event panics first). -/
def waitSteps (c : Int) : List WEv → Option Nat
  | [] => if c = 0 then some 0 else none
  | e :: es =>
    if c = 0 then some 0
    else
      match stepCounter c e with
      | none => none
      | some c2 => (waitSteps c2 es).map (· + 1)

/-- The public methods of `Graceful`. -/
inductive ApiOp where
  | add (n : Int)
  | done
  | quit
  | shutdown
  | derivedContext
deriving DecidableEq

/-- Effect of each public method on the shared synchronisation state,
read from the method bodies: `Add`/`Done` change only the counter (and
panic on a negative result), `Quit` returns the quit channel without
mutating anything, `Shutdown` closes `quit` through `quitOnce` and then
only waits, and `Context` spawns a listener goroutine without mutating
any field of the `Graceful` value. -/
def apiStep (g : GState) : ApiOp → Option GState
  | ApiOp.add n => Add g n
  | ApiOp.done => Done g
  | ApiOp.quit => some (Quit g).1
  | ApiOp.shutdown => some (requestQuit g)
  | ApiOp.derivedContext => some g

lemma Shutdown_snd (g : GState) (r : Race) (e : CtxErr) (coin : Bool) :
    (Shutdown g r e coin).2 = (selectFirst r coin).map fun tb =>
      (tb.1, match tb.2 with
        | Branch.ctxDone => some e
        | Branch.drained => none) := rfl

lemma selectFirst_eq_none (r : Race) (coin : Bool) :
    selectFirst r coin = none ↔ r.tCtx = none ∧ r.tZero = none := by
  obtain ⟨tc, tz⟩ := r
  cases tc <;> cases tz <;> simp only [selectFirst] <;> simp
  split
  · simp
  · split <;> simp

lemma runCounter_append (c : Int) (l1 l2 : List WEv) :
    runCounter c (l1 ++ l2) = (runCounter c l1).bind fun c2 => runCounter c2 l2 := by
  induction l1 generalizing c with
  | nil => simp [runCounter]
  | cons e es ih =>
    simp only [List.cons_append, runCounter]
    cases stepCounter c e with
    | none => simp
    | some c2 => simp [ih]

lemma stepCounter_nonneg (c c2 : Int) (e : WEv) (h : stepCounter c e = some c2) :
    0 ≤ c2 := by
  cases e with
  | add n =>
    simp only [stepCounter, wgAdd] at h
    split at h
    · simp at h
    · injection h with h
      omega
  | done =>
    simp only [stepCounter, wgAdd] at h
    split at h
    · simp at h
    · injection h with h
      omega

lemma runCounter_nonneg (c : Int) (l : List WEv) (v : Int)
    (h : runCounter c l = some v) (hc : 0 ≤ c) : 0 ≤ v := by
  induction l generalizing c with
  | nil => simp [runCounter] at h; omega
  | cons e es ih =>
    simp only [runCounter] at h
    cases hstep : stepCounter c e with
    | none => rw [hstep] at h; simp at h
    | some c2 =>
      rw [hstep] at h
      exact ih c2 h (stepCounter_nonneg c c2 e hstep)

lemma waitSteps_of_drain (c : Int) (es : List WEv) (h : runCounter c es = some 0) :
    ∃ k, k ≤ es.length ∧ waitSteps c es = some k ∧
      runCounter c (es.take k) = some 0 := by
  induction es generalizing c with
  | nil =>
    simp only [runCounter, Option.some.injEq] at h
    exact ⟨0, le_rfl, by simp [waitSteps, h], by simp [runCounter, h]⟩
  | cons e es ih =>
    by_cases hc : c = 0
    · exact ⟨0, by simp, by simp [waitSteps, hc], by simp [runCounter, hc]⟩
    · simp only [runCounter] at h
      cases hstep : stepCounter c e with
      | none => rw [hstep] at h; simp at h
      | some c2 =>
        rw [hstep] at h
        obtain ⟨k, hk, hw, hr⟩ := ih c2 h
        refine ⟨k + 1, by simpa using hk, ?_, ?_⟩
        · simp [waitSteps, hc, hstep, hw]
        · simp [List.take_succ_cons, runCounter, hstep, hr]

lemma waitSteps_eq_length (c : Int) (es : List WEv) (h : runCounter c es = some 0)
    (hpos : ∀ i, i < es.length → runCounter c (es.take i) ≠ some 0) :
    waitSteps c es = some es.length := by
  induction es generalizing c with
  | nil =>
    simp only [runCounter, Option.some.injEq] at h
    simp [waitSteps, h]
  | cons e es ih =>
    have hc : c ≠ 0 := fun hc0 =>
      hpos 0 (by simp) (by simp [runCounter, hc0])
    simp only [runCounter] at h
    cases hstep : stepCounter c e with
    | none => rw [hstep] at h; simp at h
    | some c2 =>
      rw [hstep] at h
      have hrec : waitSteps c2 es = some es.length := by
        refine ih c2 h fun i hi => ?_
        have := hpos (i + 1) (by simpa using hi)
        simpa [List.take_succ_cons, runCounter, hstep] using this
      simp [waitSteps, hc, hstep, hrec]

/-- C1: for every `Shutdown` call, if the counter drains strictly before
the deadline context fires the call returns success (Go `nil`); if the
deadline context fires strictly first it returns the context's error — a
`DeadlineExceeded` or `Canceled` value carrying the underlying
cancellation reason `ctx.Err()`; every value the call returns is one of
those two, and the call fails to return only when neither signal ever
fires. -/
theorem C1_shutdown_outcomes (g : GState) (r : Race) (e : CtxErr) (coin : Bool) :
    (∀ b, r.tZero = some b → (∀ a, r.tCtx = some a → b < a) →
      (Shutdown g r e coin).2 = some (b, none)) ∧
    (∀ a, r.tCtx = some a → (∀ b, r.tZero = some b → a < b) →
      (Shutdown g r e coin).2 = some (a, some e)) ∧
    (∀ t res, (Shutdown g r e coin).2 = some (t, res) →
      res = none ∨ res = some e) ∧
    ((Shutdown g r e coin).2 = none ↔ r.tCtx = none ∧ r.tZero = none) := by
  obtain ⟨tc, tz⟩ := r
  refine ⟨?_, ?_, ?_, ?_⟩
  · intro b hb hlt
    cases tc with
    | none =>
      subst hb
      simp [Shutdown, selectFirst]
    | some a =>
      subst hb
      have hba : b < a := hlt a rfl
      simp [Shutdown, selectFirst, hba, Nat.lt_asymm hba]
  · intro a ha hlt
    cases tz with
    | none =>
      subst ha
      simp [Shutdown, selectFirst]
    | some b =>
      subst ha
      have hab : a < b := hlt b rfl
      simp [Shutdown, selectFirst, hab]
  · intro t res h
    rw [Shutdown_snd, Option.map_eq_some'] at h
    obtain ⟨⟨t2, br⟩, hsel, heq⟩ := h
    cases br with
    | ctxDone =>
      injection heq with h1 hres
      exact Or.inr hres.symm
    | drained =>
      injection heq with h1 hres
      exact Or.inl hres.symm
  · rw [Shutdown_snd, Option.map_eq_none']
    exact selectFirst_eq_none ⟨tc, tz⟩ coin

/-- Witness for C1 at a concrete input: the counter drains at instant 2,
the deadline would fire at instant 5, so `Shutdown` returns success at
instant 2. -/
theorem C1_shutdown_outcomes_witness :
    (Shutdown NewGraceful ⟨some 5, some 2⟩ CtxErr.deadlineExceeded true).2 =
      some (2, none) :=
  (C1_shutdown_outcomes NewGraceful ⟨some 5, some 2⟩ CtxErr.deadlineExceeded
    true).1 2 rfl (by intro a ha; injection ha with h; omega)

/-- C3: setting the quit signal is one-shot and idempotent: closing it
sets the flag, closing twice equals closing once, a close on an
already-quitting state changes nothing, any positive number of repeated
closes equals one close, and the state effect of a whole `Shutdown` run —
also one that returns a cancellation error — is exactly the quit closure,
never a rollback. -/
theorem C3_quit_one_shot (g : GState) (r : Race) (e : CtxErr) (coin : Bool) (n : Nat) :
    (requestQuit g).quitClosed = true ∧
    requestQuit (requestQuit g) = requestQuit g ∧
    (g.quitClosed = true → requestQuit g = g) ∧
    requestQuit^[n + 1] g = requestQuit g ∧
    (Shutdown g r e coin).1 = requestQuit g := by
  obtain ⟨c, q⟩ := g
  refine ⟨rfl, rfl, ?_, ?_, rfl⟩
  · intro h
    simp only [GState.quitClosed] at h
    subst h
    rfl
  · rw [Function.iterate_succ_apply]
    exact Function.iterate_fixed rfl n

/-- Witness for C3 at a concrete input: a second quit closure on an
already-quitting coordinator is a no-op. -/
theorem C3_quit_one_shot_witness :
    requestQuit (requestQuit NewGraceful) = requestQuit NewGraceful :=
  (C3_quit_one_shot (requestQuit NewGraceful) ⟨none, none⟩ CtxErr.canceled
    true 0).2.2.1 rfl

/-- C4: an `Add` or `Done` whose delta would take the counter below zero
panics the WaitGroup at that very operation, the panic poisons the whole
run instead of being a recoverable value, and the counter is never
silently clamped: every surviving run has a non-negative counter. -/
theorem C4_negative_counter_faults (pre suf : List WEv) (e : WEv) (c : Int)
    (hpre : runCounter 0 pre = some c) (hneg : c + evDelta e < 0) :
    stepCounter c e = none ∧
    runCounter 0 (pre ++ e :: suf) = none ∧
    (∀ tr v, runCounter 0 tr = some v → 0 ≤ v) := by
  have hstep : stepCounter c e = none := by
    cases e with
    | add n =>
      simp only [evDelta] at hneg
      simp only [stepCounter, wgAdd]
      exact if_pos hneg
    | done =>
      simp only [evDelta] at hneg
      simp only [stepCounter, wgAdd]
      exact if_pos hneg
  refine ⟨hstep, ?_, ?_⟩
  · rw [runCounter_append, hpre]
    simp [runCounter, hstep]
  · intro tr v h
    exact runCounter_nonneg 0 tr v h le_rfl

/-- Witness for C4 at the claim's own example: one `Add(1)` followed by
two `Done()`s panics the run. -/
theorem C4_negative_counter_faults_witness :
    runCounter 0 [WEv.add 1, WEv.done, WEv.done] = none :=
  (C4_negative_counter_faults [WEv.add 1, WEv.done] [] WEv.done 0
    (by decide) (by decide)).2.1

/-- C2: a waiter blocked at counter value `c` over a remaining event
sequence that drains the counter (net-zero sum; no panic, hence no
negative excursion) is always released — the zero-crossing `Done` is
never missed — and it is released only at a point where the counter is
zero, never before; if the counter stays nonzero until the final event,
the release happens exactly at the last event; and a `Shutdown` whose
context has no deadline returns success exactly at that release
instant. -/
theorem C2_wait_returns_at_last_done (suf : List WEv) (c : Int) (g : GState)
    (e : CtxErr) (coin : Bool) (hnet : runCounter c suf = some 0) :
    (∃ k, k ≤ suf.length ∧ waitSteps c suf = some k ∧
      runCounter c (suf.take k) = some 0) ∧
    ((∀ i, i < suf.length → runCounter c (suf.take i) ≠ some 0) →
      waitSteps c suf = some suf.length ∧
      ∀ j, j < suf.length → waitSteps c suf ≠ some j) ∧
    (∀ k, waitSteps c suf = some k →
      (Shutdown g ⟨none, some k⟩ e coin).2 = some (k, none)) := by
  refine ⟨waitSteps_of_drain c suf hnet, ?_, ?_⟩
  · intro hpos
    have hlen := waitSteps_eq_length c suf hnet hpos
    refine ⟨hlen, fun j hj hcontra => ?_⟩
    rw [hlen] at hcontra
    injection hcontra with h2
    omega
  · intro k hk
    simp [Shutdown, selectFirst]

/-- Witness for C2 at a concrete input: a waiter blocked at counter 1
over the single event `Done` is released exactly at that event. -/
theorem C2_wait_returns_at_last_done_witness :
    waitSteps 1 [WEv.done] = some 1 :=
  (((C2_wait_returns_at_last_done [WEv.done] 1 NewGraceful CtxErr.canceled
    true (by decide)).2.1) (by decide)).1

/-- C5: the context returned by `Graceful.Context(parent)` is canceled at
an instant exactly when that instant is one of the two triggers (parent
canceled, quit closed) and no trigger is earlier; it is never canceled
exactly when neither trigger ever fires; it is canceled immediately when
the quit signal was already set at its creation; and the cancellation
instant is unchanged by the instant at which the counter drains. -/
theorem C5_derived_context_cancel (cr : CtxRace) (d : Option Nat) :
    (∀ t, Context cr = some t ↔
      ((cr.tParent = some t ∨ cr.tQuit = some t) ∧
        (∀ s, cr.tParent = some s → t ≤ s) ∧
        (∀ s, cr.tQuit = some s → t ≤ s))) ∧
    (Context cr = none ↔ cr.tParent = none ∧ cr.tQuit = none) ∧
    (cr.tQuit = some 0 → Context cr = some 0) ∧
    Context { cr with tDrain := d } = Context cr := by
  obtain ⟨tp, tq, td⟩ := cr
  refine ⟨?_, ?_, ?_, rfl⟩
  · intro t
    cases tp <;> cases tq <;>
      simp only [Context, ominN, Option.some.injEq] <;> constructor
    · intro h
      simp_all
    · intro ⟨h1, h2, h3⟩
      simp_all
    · intro h
      subst h
      exact ⟨Or.inr rfl, fun s hs => absurd hs (by simp),
        fun s hs => le_of_eq hs⟩
    · intro ⟨h1, h2, h3⟩
      rcases h1 with h1 | h1
      · exact absurd h1 (by simp)
      · exact h1
    · intro h
      subst h
      exact ⟨Or.inl rfl, fun s hs => le_of_eq hs,
        fun s hs => absurd hs (by simp)⟩
    · intro ⟨h1, h2, h3⟩
      rcases h1 with h1 | h1
      · exact h1
      · exact absurd h1 (by simp)
    · rename_i a b
      intro h
      subst h
      refine ⟨?_, ?_, ?_⟩
      · rcases Nat.le_total a b with hab | hab
        · exact Or.inl (by omega)
        · exact Or.inr (by omega)
      · intro s hs
        subst hs
        omega
      · intro s hs
        subst hs
        omega
    · rename_i a b
      intro ⟨h1, h2, h3⟩
      have ha := h2 a rfl
      have hb := h3 b rfl
      rcases h1 with h1 | h1 <;> omega
  · cases tp <;> cases tq <;> simp [Context, ominN]
  · intro h
    subst h
    cases tp <;> simp [Context, ominN]

/-- Witness for C5 at a concrete input: the quit signal was already set
at creation (instant 0), the parent would only be canceled at instant 3,
and the counter would only drain at instant 7; the derived context is
canceled immediately. -/
theorem C5_derived_context_cancel_witness :
    Context ⟨some 3, some 0, some 7⟩ = some 0 :=
  (C5_derived_context_cancel ⟨some 3, some 0, some 7⟩ none).2.2.1 rfl

/-- C6 counterexample: with the deadline context already canceled and the
counter already drained when the `select` is evaluated (both signals
ready at instant 0), two runs of `Shutdown` from the same state differ —
Go's `select` picks a ready case at random, so the result is not
deterministic at this boundary. -/
theorem C6_counterexample :
    Shutdown NewGraceful ⟨some 0, some 0⟩ CtxErr.canceled true ≠
      Shutdown NewGraceful ⟨some 0, some 0⟩ CtxErr.canceled false := by
  decide

/-- C6 (amended): `Shutdown` commits to whichever signal arrives first,
with no internal re-check or retry, and its result is deterministic
whenever the two signals do not arrive at the same instant; at the
boundary where both are already ready the choice is random, but the
result is still one of the two committed outcomes at that same instant. -/
theorem C6_commits_deterministically (g : GState) (r : Race) (e : CtxErr)
    (c1 c2 : Bool) :
    (r.tCtx ≠ r.tZero → Shutdown g r e c1 = Shutdown g r e c2) ∧
    (∀ a, r.tCtx = some a → r.tZero = some a →
      (Shutdown g r e c1).2 = some (a, some e) ∨
        (Shutdown g r e c1).2 = some (a, none)) := by
  obtain ⟨tc, tz⟩ := r
  constructor
  · intro hne
    cases tc <;> cases tz <;> simp only [Shutdown, selectFirst]
    rename_i a b
    have hab : a ≠ b := fun h => hne (by simp [h])
    rcases Nat.lt_or_ge a b with h | h
    · simp [h]
    · have hba : b < a := by omega
      simp [Nat.lt_asymm hba, hba]
  · intro a ha hz
    subst ha
    subst hz
    cases c1 <;> simp [Shutdown, selectFirst]

/-- Witness for C6 at a concrete input: the counter drains at instant 2
while the deadline would fire at instant 1, so both coins give the same
result. -/
theorem C6_commits_deterministically_witness :
    Shutdown NewGraceful ⟨some 1, some 2⟩ CtxErr.deadlineExceeded true =
      Shutdown NewGraceful ⟨some 1, some 2⟩ CtxErr.deadlineExceeded false :=
  (C6_commits_deterministically NewGraceful ⟨some 1, some 2⟩
    CtxErr.deadlineExceeded true false).1 (by decide)

/-- C7 counterexample: the public method the spec maps to `RequestQuit`
observation, `Quit`, does not transition the coordinator to the quitting
state — on a fresh coordinator it mutates nothing and the quit signal
stays unset; the interface offers no quit-setting operation besides
`Shutdown` itself. -/
theorem C7_counterexample :
    apiStep NewGraceful ApiOp.quit = some NewGraceful ∧
    NewGraceful.quitClosed = false ∧
    (Quit NewGraceful).1 = NewGraceful ∧
    (Quit NewGraceful).2 = false := by
  decide

/-- C7 (amended): the public interface has no standalone `RequestQuit`:
among the methods of `Graceful`, the only one whose step can set the quit
signal is `Shutdown` — `Quit` merely returns the observation channel and
mutates nothing, so an external caller can only drive the transition to
`Quitting` by calling `Shutdown`. -/
theorem C7_only_shutdown_sets_quit (g : GState) (op : ApiOp) (g2 : GState)
    (h : apiStep g op = some g2) (hq : g.quitClosed = false)
    (hq2 : g2.quitClosed = true) :
    op = ApiOp.shutdown := by
  cases op with
  | add n =>
    simp only [apiStep, Add, wgAdd] at h
    split at h <;> simp_all
    obtain ⟨rfl⟩ := h
    simp_all
  | done =>
    simp only [apiStep, Done, Add, wgAdd] at h
    split at h <;> simp_all
    obtain ⟨rfl⟩ := h
    simp_all
  | quit =>
    simp only [apiStep, Quit, Option.some.injEq] at h
    subst h
    simp_all
  | shutdown => rfl
  | derivedContext =>
    simp only [apiStep, Option.some.injEq] at h
    subst h
    simp_all

/-- Witness for C7 (amended) at a concrete input: on a fresh coordinator,
the step that sets the quit signal is the `Shutdown` method. -/
theorem C7_only_shutdown_sets_quit_witness : ApiOp.shutdown = ApiOp.shutdown :=
  C7_only_shutdown_sets_quit NewGraceful ApiOp.shutdown
    (requestQuit NewGraceful) rfl rfl rfl

/-- C8 counterexample: with a deadline at instant 5 and a counter that
never drains, `Shutdown` returns the deadline error at instant 5 while
the goroutine it spawned — the losing branch, blocked in `wg.Wait()` —
never exits: a leaked background thread. Likewise, a derived context
abandoned by its creator with neither trigger ever firing keeps its
listener goroutine alive forever. -/
theorem C8_counterexample :
    (Shutdown NewGraceful ⟨some 5, none⟩ CtxErr.deadlineExceeded true).2 =
      some (5, some CtxErr.deadlineExceeded) ∧
    shutdownGoroutineExit ⟨some 5, none⟩ = none ∧
    contextGoroutineExit ⟨none, none, none⟩ = none := by
  decide

/-- C8 (amended): background goroutines are released exactly when their
own awaited event fires, not when the race is decided: the goroutine
`Shutdown` spawns exits precisely when the counter drains — so after a
deadline-error return it survives until the drain and never exits if the
counter never reaches zero — and the listener spawned by
`Graceful.Context` exits precisely when one of its two triggers fires, so
a derived context abandoned with neither trigger fired keeps its listener
alive. -/
theorem C8_goroutine_release (r : Race) (cr : CtxRace) :
    (∀ z, r.tZero = some z → shutdownGoroutineExit r = some z) ∧
    (shutdownGoroutineExit r = none ↔ r.tZero = none) ∧
    (∀ e coin a, r.tCtx = some a → r.tZero = none →
      (Shutdown NewGraceful r e coin).2 = some (a, some e) ∧
        shutdownGoroutineExit r = none) ∧
    (∀ t, contextGoroutineExit cr = some t ↔ Context cr = some t) ∧
    (contextGoroutineExit cr = none ↔ cr.tParent = none ∧ cr.tQuit = none) := by
  obtain ⟨tc, tz⟩ := r
  refine ⟨fun z hz => hz, Iff.rfl, ?_, fun t => Iff.rfl, ?_⟩
  · intro e coin a ha hz
    subst ha
    subst hz
    exact ⟨by simp [Shutdown, selectFirst], rfl⟩
  · obtain ⟨tp, tq, td⟩ := cr
    cases tp <;> cases tq <;>
      simp [contextGoroutineExit, Context, ominN]

/-- Witness for C8 (amended) at a concrete input: deadline at instant 3,
counter never drains — `Shutdown` returns the error at instant 3 and its
goroutine never exits. -/
theorem C8_goroutine_release_witness :
    (Shutdown NewGraceful ⟨some 3, none⟩ CtxErr.canceled false).2 =
      some (3, some CtxErr.canceled) ∧
    shutdownGoroutineExit ⟨some 3, none⟩ = none :=
  (C8_goroutine_release ⟨some 3, none⟩ ⟨none, none, none⟩).2.2.1
    CtxErr.canceled false 3 rfl rfl

/-- C9: a freshly created coordinator has counter zero and an open quit
signal; a wait-for-zero that starts at a zero counter returns at once,
whatever events follow; and a `Shutdown` call whose counter is already
drained (instant 0) and whose deadline context has not fired returns
success immediately. -/
theorem C9_immediate_when_zero (g : GState) (r : Race) (e : CtxErr)
    (coin : Bool) (suf : List WEv)
    (hz : r.tZero = some 0)
    (hc : ∀ a, r.tCtx = some a → 0 < a) :
    NewGraceful.counter = 0 ∧
    NewGraceful.quitClosed = false ∧
    waitSteps 0 suf = some 0 ∧
    (Shutdown g r e coin).2 = some (0, none) := by
  obtain ⟨tc, tz⟩ := r
  subst hz
  refine ⟨rfl, rfl, ?_, ?_⟩
  · cases suf <;> simp [waitSteps]
  · cases tc with
    | none => simp [Shutdown, selectFirst]
    | some a =>
      have ha : 0 < a := hc a rfl
      simp [Shutdown, selectFirst, Nat.not_lt.mpr (Nat.le_of_lt ha), ha]

/-- Witness for C9 at a concrete input: counter already drained at
instant 0, deadline would fire at instant 4 — `Shutdown` returns success
immediately. -/
theorem C9_immediate_when_zero_witness :
    (Shutdown NewGraceful ⟨some 4, some 0⟩ CtxErr.deadlineExceeded true).2 =
      some (0, none) :=
  (C9_immediate_when_zero NewGraceful ⟨some 4, some 0⟩ CtxErr.deadlineExceeded
    true [] rfl (by intro a ha; injection ha with h; omega)).2.2.2

/-- C10: `Shutdown`'s only state mutation is closing the quit signal — the
counter after any `Shutdown` run, also one that returned a cancellation
error, is exactly the counter before it; among the public methods only
`Add` and `Done` can change the counter; and a second `Shutdown` with a
fresh deadline run from the state the first one left behind returns
success as soon as the same counter drains before the new deadline. -/
theorem C10_shutdown_frame (g : GState) (r r2 : Race) (e e2 : CtxErr)
    (coin coin2 : Bool) (op : ApiOp) :
    (Shutdown g r e coin).1.counter = g.counter ∧
    (Shutdown g r e coin).1 = requestQuit g ∧
    (∀ g2, apiStep g op = some g2 → g2.counter ≠ g.counter →
      op = ApiOp.done ∨ ∃ n, op = ApiOp.add n) ∧
    (∀ a b, r2.tCtx = some a → r2.tZero = some b → b < a →
      (Shutdown (Shutdown g r e coin).1 r2 e2 coin2).2 = some (b, none)) := by
  refine ⟨rfl, rfl, ?_, ?_⟩
  · intro g2 h hne
    cases op with
    | add n => exact Or.inr ⟨n, rfl⟩
    | done => exact Or.inl rfl
    | quit =>
      simp only [apiStep, Quit, Option.some.injEq] at h
      subst h
      exact absurd rfl hne
    | shutdown =>
      simp only [apiStep, Option.some.injEq] at h
      subst h
      exact absurd rfl hne
    | derivedContext =>
      simp only [apiStep, Option.some.injEq] at h
      subst h
      exact absurd rfl hne
  · intro a b ha hb hba
    obtain ⟨tc2, tz2⟩ := r2
    subst ha
    subst hb
    simp [Shutdown, selectFirst, hba, Nat.lt_asymm hba]

/-- Witness for C10 at a concrete input: a first `Shutdown` loses to a
deadline at instant 1; a second `Shutdown` with a fresh deadline at
instant 9 sees the counter drain at instant 6 and returns success. -/
theorem C10_shutdown_frame_witness :
    (Shutdown (Shutdown NewGraceful ⟨some 1, none⟩ CtxErr.deadlineExceeded
      true).1 ⟨some 9, some 6⟩ CtxErr.deadlineExceeded true).2 =
      some (6, none) :=
  (C10_shutdown_frame NewGraceful ⟨some 1, none⟩ ⟨some 9, some 6⟩
    CtxErr.deadlineExceeded CtxErr.deadlineExceeded true true
    ApiOp.quit).2.2.2 9 6 rfl rfl (by omega)

end Graceful
